import Mathlib

/-!
Verification of the core analytic pipeline of the `arguxai` conversion-funnel
repository: the funnel metrics engine (`app/services/metrics_calculator.py`),
the baseline comparator / anomaly detector (`app/services/anomaly_detector.py`),
the evidence collector (`app/services/evidence_collector.py`) and the issue
lifecycle manager (`app/services/issue_manager.py`), together with the
diagnosis-provider fallback of `app/integrations/deepseek_client.py`.

The Python source is shallowly embedded: numbers are modelled as exact
rationals (`ℚ`) except for the z-score computation, which takes a square root
and is modelled over `ℝ`; Python's `round(x, n)` (round-half-to-even on the
mathematical value) is modelled by `roundHalfEven`; database and network
effects are modelled by explicit state passing and oracle parameters; Python
exceptions that escape to the caller are modelled with `Except`.
-/

namespace Argux

/-- Python's banker's rounding of a rational to the nearest integer:
round half to even, as performed by the built-in `round`. -/
def roundHalfEven (x : ℚ) : ℤ :=
  if Int.fract x < 1/2 then ⌊x⌋
  else if 1/2 < Int.fract x then ⌊x⌋ + 1
  else if ⌊x⌋ % 2 = 0 then ⌊x⌋ else ⌊x⌋ + 1

/-- Python's `round(x, 2)` on an exact rational value. -/
def round2 (x : ℚ) : ℚ := ((roundHalfEven (100 * x) : ℤ) : ℚ) / 100

/-- Python's `round(x, 1)` on an exact rational value. -/
def round1 (x : ℚ) : ℚ := ((roundHalfEven (10 * x) : ℤ) : ℚ) / 10

theorem roundHalfEven_intCast (k : ℤ) : roundHalfEven (k : ℚ) = k := by
  unfold roundHalfEven
  rw [Int.fract_intCast, Int.floor_intCast]
  norm_num

/-- Rounding a value and its complement to an even integer total is exact:
the two roundings always move in opposite directions (and at the half-way
point the two floors have opposite parities because the total is even). -/
theorem roundHalfEven_add_compl (n : ℤ) (hn : n % 2 = 0) (y : ℚ) :
    roundHalfEven y + roundHalfEven ((n : ℚ) - y) = n := by
  have hr0 : 0 ≤ Int.fract y := Int.fract_nonneg y
  have hr1 : Int.fract y < 1 := Int.fract_lt_one y
  have hfr : Int.fract y = y - ⌊y⌋ := rfl
  rcases eq_or_ne (Int.fract y) 0 with h0 | h0
  · have hy : y = (⌊y⌋ : ℚ) := by rw [hfr] at h0; linarith
    have h2 : (n : ℚ) - y = ((n - ⌊y⌋ : ℤ) : ℚ) := by push_cast; linarith
    have e1 : roundHalfEven y = ⌊y⌋ := by
      unfold roundHalfEven
      rw [h0]
      norm_num
    have e2 : roundHalfEven ((n : ℚ) - y) = n - ⌊y⌋ := by
      rw [h2, roundHalfEven_intCast]
    rw [e1, e2]
    omega
  · have hrpos : 0 < Int.fract y := lt_of_le_of_ne hr0 (Ne.symm h0)
    have hflt : (⌊y⌋ : ℚ) < y := by rw [hfr] at hrpos; linarith
    have hfloor : ⌊(n : ℚ) - y⌋ = n - ⌊y⌋ - 1 := by
      apply Int.floor_eq_iff.mpr
      refine ⟨?_, ?_⟩
      · push_cast
        have := Int.lt_floor_add_one y
        linarith
      · push_cast
        linarith
    have hfract : Int.fract ((n : ℚ) - y) = 1 - Int.fract y := by
      have h1 : Int.fract ((n : ℚ) - y) = ((n : ℚ) - y) - ⌊(n : ℚ) - y⌋ := rfl
      rw [h1, hfloor, hfr]
      push_cast
      ring
    unfold roundHalfEven
    rw [hfloor, hfract]
    rcases lt_trichotomy (Int.fract y) (1/2) with hlt | heq | hgt
    · rw [if_pos hlt, if_neg (by linarith), if_pos (by linarith)]
      omega
    · rw [heq]
      norm_num
      by_cases hd : (2 : ℤ) ∣ ⌊y⌋
      · rw [if_pos hd, if_neg (by omega)]
        omega
      · rw [if_neg hd, if_pos (by omega)]
        omega
    · rw [if_neg (by linarith), if_pos hgt, if_pos (by linarith)]
      omega

theorem round2_intCast (k : ℤ) : round2 (k : ℚ) = (k : ℚ) := by
  unfold round2
  rw [show (100 : ℚ) * (k : ℚ) = ((100 * k : ℤ) : ℚ) by push_cast; ring,
      roundHalfEven_intCast]
  push_cast
  ring

/-- Values that already have at most two decimal places are fixed by
`round2`. -/
theorem round2_int_div_hundred (k : ℤ) : round2 ((k : ℚ) / 100) = (k : ℚ) / 100 := by
  unfold round2
  have h : (100 : ℚ) * ((k : ℚ) / 100) = (k : ℚ) := by ring
  rw [h, roundHalfEven_intCast]

/-- The two rounded percentage fields always add up to exactly 100. -/
theorem round2_add_compl (x : ℚ) : round2 x + round2 (100 - x) = 100 := by
  unfold round2
  have h : (100 : ℚ) * (100 - x) = (10000 : ℤ) - 100 * x := by push_cast; ring
  rw [h, div_add_div_same]
  rw [show ((roundHalfEven (100 * x) : ℤ) : ℚ) + ((roundHalfEven ((10000 : ℤ) - 100 * x) : ℤ) : ℚ)
      = ((roundHalfEven (100 * x) + roundHalfEven (((10000 : ℤ) : ℚ) - 100 * x) : ℤ) : ℚ) by push_cast; ring_nf]
  rw [roundHalfEven_add_compl 10000 (by norm_num) (100 * x)]
  norm_num

theorem round2_zero : round2 0 = 0 := by
  have h := round2_intCast 0
  push_cast at h
  exact h

theorem round2_hundred : round2 100 = 100 := by
  have h := round2_intCast 100
  push_cast at h
  exact h

/-- One raw user-interaction event, as stored in the `events` table and
consumed by `MetricsCalculator` and `EvidenceCollector` (`app/models/events.py`:
`device_type`, `country` and `app_version` carry non-null defaults at
ingestion; `funnel_step`, `error_type` and `error_message` are optional). -/
structure Event where
  event_type : String
  session_id : String
  user_id : Option String
  timestamp : ℤ
  funnel_step : Option String
  device_type : String
  country : String
  app_version : String
  error_type : Option String
  error_message : Option String
deriving DecidableEq, Inhabited, Repr

/-- The aggregate statistics of one funnel step over one window
(`app/models/metrics.py`, `FunnelMetrics`). Rates are exact rationals
standing for the Python floats. -/
structure FunnelMetrics where
  funnel_step : String
  period : String
  timestamp_start : ℤ
  timestamp_end : ℤ
  total_sessions : ℕ
  completed_sessions : ℕ
  conversion_rate : ℚ
  drop_off_rate : ℚ
  by_country : List (String × ℕ)
  by_device : List (String × ℕ)
  mean_time_on_step : Option ℚ
  median_time_on_step : Option ℚ
deriving DecidableEq, Repr

/-- Stable insertion of `a` into `l`, placing `a` after any element it is not
strictly below.  `stableSort` built on it models Python's stable `list.sort`
and SQL `ORDER BY` (which we model as stable as well). -/
def orderedInsert {α : Type} (lt : α → α → Bool) (a : α) : List α → List α
  | [] => [a]
  | b :: t => if lt a b then a :: b :: t else b :: orderedInsert lt a t

/-- Stable sort by the strict comparison `lt`. -/
def stableSort {α : Type} (lt : α → α → Bool) (l : List α) : List α :=
  l.foldl (fun acc a => orderedInsert lt a acc) []

/-- Distinct session ids in first-occurrence order; models both Python's
`defaultdict` grouping order and SQLite's `SELECT DISTINCT session_id` scan
order. -/
def distinctSessionIds (events : List Event) : List String :=
  events.foldl (fun acc e => if e.session_id ∈ acc then acc else acc ++ [e.session_id]) []

/-- All events of one session, in the order they appear in the input list. -/
def sessionEvents (events : List Event) (sid : String) : List Event :=
  events.filter (fun e => e.session_id == sid)

/-- The session's events sorted by timestamp, as `session_events.sort(key=...)`
does in `MetricsCalculator._calculate_from_events`. -/
def sessionEventsSorted (events : List Event) (sid : String) : List Event :=
  stableSort (fun a b => a.timestamp < b.timestamp) (sessionEvents events sid)

/-- The completion markers of `_calculate_from_events`: an event whose type is
`login_complete` or `custom`, or whose funnel step is `login_complete`. -/
def isCompletionEvent (e : Event) : Bool :=
  e.event_type == "login_complete" || e.event_type == "custom"
    || e.funnel_step == some "login_complete"

/-- A session counts as completed if any of its events is a completion
marker. -/
def sessionHasSuccess (es : List Event) : Bool :=
  es.any isCompletionEvent

/-- Increment the tally of `key` in an insertion-ordered association list;
models `defaultdict(int)` counting. -/
def tallyIncr (key : String) : List (String × ℕ) → List (String × ℕ)
  | [] => [(key, 1)]
  | (k, n) :: t => if k = key then (k, n + 1) :: t else (k, n) :: tallyIncr key t

/-- Arithmetic mean, as `statistics.mean` (callers guard against `[]`). -/
def meanList (l : List ℚ) : ℚ := l.sum / (l.length : ℚ)

/-- Median, as `statistics.median`: middle element for odd length, average of
the two middle elements for even length (callers guard against `[]`). -/
def medianList (l : List ℚ) : ℚ :=
  let s := stableSort (fun a b => decide (a < b)) l
  let k := l.length
  if k % 2 = 1 then s.getD (k / 2) 0
  else (s.getD (k / 2 - 1) 0 + s.getD (k / 2) 0) / 2

/-- Time-on-step samples: for every session with at least two events, the
difference between its last and first timestamp in seconds. -/
def timeOnStepSamples (events : List Event) (sids : List String) : List ℚ :=
  sids.foldr
    (fun sid acc =>
      let es := sessionEventsSorted events sid
      if 2 ≤ es.length then
        (((es.getLastD default).timestamp - (es.headD default).timestamp : ℤ) : ℚ) / 1000 :: acc
      else acc)
    []

/-- Segmentation tally over each session's first event, as in
`_calculate_from_events` (`by_country` / `by_device`). -/
def firstEventTally (events : List Event) (sids : List String) (attr : Event → String) :
    List (String × ℕ) :=
  sids.foldl
    (fun acc sid =>
      match sessionEventsSorted events sid with
      | [] => acc
      | e :: _ => tallyIncr (attr e) acc)
    []

/-- Shallow embedding of `MetricsCalculator._calculate_from_events`: group the
events by session, count completed sessions, compute the rounded conversion
and drop-off rates, segmentation tallies from each session's first event, and
the mean/median time on step (`None` when the sample list is empty, and also
when the mean/median is `0.0`, mirroring Python's falsy check
`round(x, 1) if x else None`). -/
def calculateFromEvents (events : List Event) (funnelStep period : String)
    (startTs endTs : ℤ) : FunnelMetrics :=
  let sids := distinctSessionIds events
  let totalSessions := sids.length
  let completedSessions :=
    (sids.filter (fun sid => sessionHasSuccess (sessionEventsSorted events sid))).length
  let timeOnStep := timeOnStepSamples events sids
  let rawConversionRate : ℚ :=
    if 0 < totalSessions then (completedSessions : ℚ) / (totalSessions : ℚ) * 100 else 0
  { funnel_step := funnelStep
    period := period
    timestamp_start := startTs
    timestamp_end := endTs
    total_sessions := totalSessions
    completed_sessions := completedSessions
    conversion_rate := round2 rawConversionRate
    drop_off_rate := round2 (100 - rawConversionRate)
    by_country := firstEventTally events sids (·.country)
    by_device := firstEventTally events sids (·.device_type)
    mean_time_on_step :=
      if timeOnStep.isEmpty then none
      else if meanList timeOnStep = 0 then none else some (round1 (meanList timeOnStep))
    median_time_on_step :=
      if timeOnStep.isEmpty then none
      else if medianList timeOnStep = 0 then none else some (round1 (medianList timeOnStep)) }

/-- The session cohort of a funnel step for a window: distinct session ids
with at least one event carrying the step inside the window
(`SELECT DISTINCT session_id FROM events WHERE funnel_step = ? AND
timestamp >= ? AND timestamp <= ?`). -/
def cohortSessionIds (db : List Event) (funnelStep : String) (startTs endTs : ℤ) :
    List String :=
  distinctSessionIds (db.filter
    (fun e => decide (e.funnel_step = some funnelStep ∧
      startTs ≤ e.timestamp ∧ e.timestamp ≤ endTs)))

/-- All events of the cohort's sessions regardless of window, ordered by
`session_id, timestamp` as the second SQL query does. -/
def journeyEvents (db : List Event) (sids : List String) : List Event :=
  stableSort
    (fun a b => decide (a.session_id < b.session_id ∨
      (a.session_id = b.session_id ∧ a.timestamp < b.timestamp)))
    (db.filter (fun e => sids.contains e.session_id))

/-- The zero-session sentinel returned for an empty cohort. -/
def emptyFunnelMetrics (funnelStep period : String) (startTs endTs : ℤ) : FunnelMetrics :=
  { funnel_step := funnelStep
    period := period
    timestamp_start := startTs
    timestamp_end := endTs
    total_sessions := 0
    completed_sessions := 0
    conversion_rate := 0
    drop_off_rate := 100
    by_country := []
    by_device := []
    mean_time_on_step := none
    median_time_on_step := none }

/-- Shallow embedding of `MetricsCalculator.calculate_funnel_metrics` with the
event store passed explicitly: find the cohort, return the sentinel when it is
empty, otherwise compute metrics over the cohort's full journeys. -/
def calculateFunnelMetrics (db : List Event) (funnelStep period : String)
    (startTs endTs : ℤ) : FunnelMetrics :=
  let sids := cohortSessionIds db funnelStep startTs endTs
  if sids.isEmpty then emptyFunnelMetrics funnelStep period startTs endTs
  else calculateFromEvents (journeyEvents db sids) funnelStep period startTs endTs

theorem calculateFromEvents_invariant (events : List Event) (funnelStep period : String)
    (startTs endTs : ℤ) :
    (calculateFromEvents events funnelStep period startTs endTs).conversion_rate
        + (calculateFromEvents events funnelStep period startTs endTs).drop_off_rate = 100 ∧
    ((calculateFromEvents events funnelStep period startTs endTs).total_sessions = 0 →
      (calculateFromEvents events funnelStep period startTs endTs).conversion_rate = 0 ∧
      (calculateFromEvents events funnelStep period startTs endTs).drop_off_rate = 100) := by
  unfold calculateFromEvents
  refine ⟨round2_add_compl _, fun h0 => ?_⟩
  simp only at h0 ⊢
  rw [if_neg (by omega)]
  constructor
  · exact round2_zero
  · rw [show (100 : ℚ) - 0 = 100 by norm_num]
    exact round2_hundred

/-- Comparison of a current against a baseline window
(`app/models/metrics.py`, `ComparisonMetrics`). -/
structure ComparisonMetrics where
  current : FunnelMetrics
  baseline : FunnelMetrics
  conversion_rate_delta : ℚ
  sessions_delta : ℤ
  drop_detected : Bool
  drop_percentage : Option ℚ
deriving DecidableEq, Repr

/-- Default `settings.min_drop_percent` (`app/config.py`). -/
def minDropPercent : ℚ := 12

/-- Default `settings.min_sample_size` (`app/config.py`). -/
def minSampleSize : ℕ := 100

/-- Default `settings.sigma_threshold` (`app/config.py`). -/
noncomputable def sigmaThreshold : ℝ := 2

/-- Shallow embedding of `MetricsCalculator.compare_with_baseline` given the
two already-computed metrics: the delta of the (already rounded) conversion
rates, the session-count delta, and the strict drop check against
`min_drop_percent`. -/
def compareWithBaseline (current baseline : FunnelMetrics) : ComparisonMetrics :=
  let convRateDelta := current.conversion_rate - baseline.conversion_rate
  { current := current
    baseline := baseline
    conversion_rate_delta := round2 convRateDelta
    sessions_delta := (current.total_sessions : ℤ) - (baseline.total_sessions : ℤ)
    drop_detected := decide (convRateDelta < -minDropPercent)
    drop_percentage :=
      if convRateDelta < -minDropPercent then some (round2 |convRateDelta|) else none }

/-- Pooled proportion of the two-proportion z-test
(`AnomalyDetector._calculate_sigma`). -/
noncomputable def pooledProportion (currentRate baselineRate : ℚ) (currentN baselineN : ℕ) : ℝ :=
  ((currentRate : ℝ) / 100 * currentN + (baselineRate : ℝ) / 100 * baselineN)
    / ((currentN : ℝ) + (baselineN : ℝ))

/-- Standard error of the two-proportion z-test
(`AnomalyDetector._calculate_sigma`). -/
noncomputable def standardError (currentRate baselineRate : ℚ) (currentN baselineN : ℕ) : ℝ :=
  Real.sqrt (pooledProportion currentRate baselineRate currentN baselineN
    * (1 - pooledProportion currentRate baselineRate currentN baselineN)
    * (1 / (currentN : ℝ) + 1 / (baselineN : ℝ)))

open scoped Classical in
/-- Shallow embedding of `AnomalyDetector._calculate_sigma`.  The first guard
models the `try/except` around the Python body: with a zero sample size the
pooled proportion or the `1/n` term raises `ZeroDivisionError`, which the
method catches, returning `0.0`; the second guard is the explicit
`if se == 0: return 0.0`. -/
noncomputable def calculateSigma (currentRate baselineRate : ℚ) (currentN baselineN : ℕ) : ℝ :=
  if currentN = 0 ∨ baselineN = 0 then 0
  else if standardError currentRate baselineRate currentN baselineN = 0 then 0
  else |(currentRate : ℝ) / 100 - (baselineRate : ℝ) / 100|
    / standardError currentRate baselineRate currentN baselineN

/-- A detected anomaly (`app/models/issues.py`, `Anomaly`).  `sigma_value` is
real-valued because the z-score involves a square root. -/
structure Anomaly where
  funnel_step : String
  detected_at : ℤ
  current_conversion_rate : ℚ
  baseline_conversion_rate : ℚ
  drop_percentage : ℚ
  sigma_value : ℝ
  is_significant : Bool
  current_sessions : ℕ
  baseline_sessions : ℕ
deriving Inhabited

/-- Banker's rounding on a real value, for `round(sigma_value, 2)`. -/
noncomputable def roundHalfEvenReal (x : ℝ) : ℤ :=
  if Int.fract x < 1/2 then ⌊x⌋
  else if 1/2 < Int.fract x then ⌊x⌋ + 1
  else if ⌊x⌋ % 2 = 0 then ⌊x⌋ else ⌊x⌋ + 1

/-- Python's `round(x, 2)` on a real value. -/
noncomputable def round2Real (x : ℝ) : ℝ := ((roundHalfEvenReal (100 * x) : ℤ) : ℝ) / 100

open scoped Classical in
/-- Shallow embedding of `AnomalyDetector.detect_anomaly` given the comparison
metrics of the current and baseline windows: the three sequential gates
(sample size, drop magnitude against the rounded delta, z-score) and the
emitted `Anomaly` on acceptance.  In the accepting branch the Python local
`is_significant = sigma_value >= self.sigma_threshold` is `True`, so the
emitted field is the literal `true`. -/
noncomputable def detectAnomalyOn (funnelStep : String) (current baseline : FunnelMetrics)
    (now : ℤ) : Option Anomaly :=
  let comparison := compareWithBaseline current baseline
  if comparison.current.total_sessions < minSampleSize then none
  else
    let dropPct := |comparison.conversion_rate_delta|
    if -minDropPercent ≤ comparison.conversion_rate_delta then none
    else
      let sigmaValue := calculateSigma comparison.current.conversion_rate
        comparison.baseline.conversion_rate comparison.current.total_sessions
        comparison.baseline.total_sessions
      if sigmaValue < sigmaThreshold then none
      else some
        { funnel_step := funnelStep
          detected_at := now
          current_conversion_rate := comparison.current.conversion_rate
          baseline_conversion_rate := comparison.baseline.conversion_rate
          drop_percentage := dropPct
          sigma_value := round2Real sigmaValue
          is_significant := true
          current_sessions := comparison.current.total_sessions
          baseline_sessions := comparison.baseline.total_sessions }

/-- A lower bound on the z-score follows from a positive standard error that
is small against the rate difference. -/
theorem le_calculateSigma_of_se_bound (currentRate baselineRate : ℚ) (n1 n2 : ℕ) (t : ℝ)
    (hn : ¬(n1 = 0 ∨ n2 = 0))
    (hpos : 0 < standardError currentRate baselineRate n1 n2)
    (hle : t * standardError currentRate baselineRate n1 n2
      ≤ |(currentRate : ℝ) / 100 - (baselineRate : ℝ) / 100|) :
    t ≤ calculateSigma currentRate baselineRate n1 n2 := by
  unfold calculateSigma
  rw [if_neg hn, if_neg (ne_of_gt hpos), le_div_iff₀ hpos]
  exact hle

open scoped Classical in
/-- C3: `_calculate_sigma` is exactly the pooled two-proportion z-test with a
zero guard on the standard error; equal rates give a zero score for any
positive sample sizes, and the computation is total (the `n = 0` exception
paths are caught and return `0.0`). -/
theorem sigma_is_pooled_z_test (currentRate baselineRate : ℚ) (currentN baselineN : ℕ)
    (h1 : 0 < currentN) (h2 : 0 < baselineN) :
    calculateSigma currentRate baselineRate currentN baselineN =
      (if standardError currentRate baselineRate currentN baselineN = 0 then 0
       else |(currentRate : ℝ) / 100 - (baselineRate : ℝ) / 100|
         / standardError currentRate baselineRate currentN baselineN) ∧
    (standardError currentRate baselineRate currentN baselineN = 0 →
      calculateSigma currentRate baselineRate currentN baselineN = 0) ∧
    (currentRate = baselineRate →
      calculateSigma currentRate baselineRate currentN baselineN = 0) := by
  have hg : ¬(currentN = 0 ∨ baselineN = 0) := by omega
  unfold calculateSigma
  rw [if_neg hg]
  refine ⟨rfl, fun hse => by rw [if_pos hse], fun heq => ?_⟩
  by_cases hse : standardError currentRate baselineRate currentN baselineN = 0
  · rw [if_pos hse]
  · rw [if_neg hse, heq]
    simp

/-- Witness for C3 at equal rates 50% with 100 sessions on both sides. -/
theorem sigma_is_pooled_z_test_witness : calculateSigma 50 50 100 100 = 0 :=
  (sigma_is_pooled_z_test 50 50 100 100 (by norm_num) (by norm_num)).2.2 rfl

open scoped Classical in
/-- C1 (amended): for conversion rates with at most two decimal places (as all
rates computed by the metrics engine are), the detector emits an anomaly if
and only if the sample-size gate, the strict drop gate
`delta < -min_drop_percent`, and the z-score gate all pass, and on acceptance
the anomaly carries `drop_percentage = |delta|`, `sigma_value = round(z, 2)`
and `is_significant = true`.  The drop gate is strict: the boundary
`delta = -min_drop_percent` is rejected (`delta >= -min_drop_percent` in the
source), not accepted. -/
theorem detect_anomaly_iff_gates (funnelStep : String) (current baseline : FunnelMetrics)
    (now : ℤ)
    (hc : ∃ k : ℤ, current.conversion_rate = (k : ℚ) / 100)
    (hb : ∃ k : ℤ, baseline.conversion_rate = (k : ℚ) / 100) :
    detectAnomalyOn funnelStep current baseline now =
      if minSampleSize ≤ current.total_sessions
          ∧ current.conversion_rate - baseline.conversion_rate < -minDropPercent
          ∧ sigmaThreshold ≤ calculateSigma current.conversion_rate baseline.conversion_rate
              current.total_sessions baseline.total_sessions
      then some
        { funnel_step := funnelStep
          detected_at := now
          current_conversion_rate := current.conversion_rate
          baseline_conversion_rate := baseline.conversion_rate
          drop_percentage := |current.conversion_rate - baseline.conversion_rate|
          sigma_value := round2Real (calculateSigma current.conversion_rate
            baseline.conversion_rate current.total_sessions baseline.total_sessions)
          is_significant := true
          current_sessions := current.total_sessions
          baseline_sessions := baseline.total_sessions }
      else none := by
  obtain ⟨k, hk⟩ := hc
  obtain ⟨j, hj⟩ := hb
  have hδ : round2 (current.conversion_rate - baseline.conversion_rate)
      = current.conversion_rate - baseline.conversion_rate := by
    rw [hk, hj, div_sub_div_same,
        show ((k : ℚ) - (j : ℚ)) = ((k - j : ℤ) : ℚ) by push_cast; ring]
    exact round2_int_div_hundred _
  simp only [detectAnomalyOn, compareWithBaseline]
  rw [hδ]
  set δ := current.conversion_rate - baseline.conversion_rate with hδd
  set σ := calculateSigma current.conversion_rate baseline.conversion_rate
    current.total_sessions baseline.total_sessions with hσd
  by_cases g1 : current.total_sessions < minSampleSize
  · rw [if_pos g1]
    exact (if_neg (fun hcontra => absurd hcontra.1 (by omega))).symm
  · rw [if_neg g1]
    by_cases g2 : -minDropPercent ≤ δ
    · rw [if_pos g2]
      exact (if_neg (fun hcontra => absurd hcontra.2.1 (by linarith))).symm
    · rw [if_neg g2]
      by_cases g3 : σ < sigmaThreshold
      · rw [if_pos g3]
        exact (if_neg (fun hcontra => absurd hcontra.2.2 (by linarith))).symm
      · rw [if_neg g3, if_pos ⟨by omega, by linarith, by linarith⟩]

/-- Current-window metrics of the spec's detection test vector: 300 sessions
at a 52% conversion rate. -/
def detectCurrentW : FunnelMetrics :=
  { funnel_step := "login_button_click"
    period := "last_24_hours"
    timestamp_start := 0
    timestamp_end := 1
    total_sessions := 300
    completed_sessions := 156
    conversion_rate := 52
    drop_off_rate := 48
    by_country := []
    by_device := []
    mean_time_on_step := none
    median_time_on_step := none }

/-- Baseline-window metrics of the spec's detection test vector: 650 sessions
at an 87% conversion rate. -/
def detectBaselineW : FunnelMetrics :=
  { funnel_step := "login_button_click"
    period := "last_7_days"
    timestamp_start := 0
    timestamp_end := 1
    total_sessions := 650
    completed_sessions := 566
    conversion_rate := 87
    drop_off_rate := 13
    by_country := []
    by_device := []
    mean_time_on_step := none
    median_time_on_step := none }

theorem sigma_witness_vector : (2 : ℝ) ≤ calculateSigma 52 87 300 650 := by
  have hp : pooledProportion 52 87 300 650 = 1443 / 1900 := by
    unfold pooledProportion
    push_cast
    norm_num
  have harg : pooledProportion 52 87 300 650 * (1 - pooledProportion 52 87 300 650)
      * (1 / ((300 : ℕ) : ℝ) + 1 / ((650 : ℕ) : ℝ)) = 12529569 / 14079000000 := by
    rw [hp]
    push_cast
    norm_num
  have hse : standardError 52 87 300 650 = Real.sqrt (12529569 / 14079000000) := by
    unfold standardError
    rw [harg]
  have hsepos : 0 < standardError 52 87 300 650 := by
    rw [hse]
    exact Real.sqrt_pos.mpr (by norm_num)
  have hsele : standardError 52 87 300 650 ≤ 7 / 40 := by
    rw [hse]
    calc Real.sqrt (12529569 / 14079000000) ≤ Real.sqrt ((7 / 40) ^ 2) :=
          Real.sqrt_le_sqrt (by norm_num)
      _ = 7 / 40 := Real.sqrt_sq (by norm_num)
  have habs : |((52 : ℚ) : ℝ) / 100 - ((87 : ℚ) : ℝ) / 100| = 35 / 100 := by
    rw [show ((52 : ℚ) : ℝ) / 100 - ((87 : ℚ) : ℝ) / 100 = -(35 / 100) by push_cast; ring,
        abs_neg, abs_of_pos (by norm_num : (0 : ℝ) < 35 / 100)]
  apply le_calculateSigma_of_se_bound _ _ _ _ _ (by norm_num) hsepos
  rw [habs]
  linarith

/-- Witness for C1 at the spec's test vector (52% vs 87%, 300 vs 650
sessions): all three gates pass and an anomaly is emitted. -/
theorem detect_anomaly_iff_gates_witness :
    (detectAnomalyOn "login_button_click" detectCurrentW detectBaselineW 5000).isSome = true := by
  have h := detect_anomaly_iff_gates "login_button_click" detectCurrentW detectBaselineW 5000
    ⟨5200, by norm_num [detectCurrentW]⟩ ⟨8700, by norm_num [detectBaselineW]⟩
  rw [h, if_pos ⟨by norm_num [detectCurrentW, minSampleSize],
    by norm_num [detectCurrentW, detectBaselineW, minDropPercent],
    show sigmaThreshold ≤ calculateSigma 52 87 300 650 from sigma_witness_vector⟩]
  rfl

/-- Current-window metrics sitting exactly on the drop boundary: 1000
sessions at a 60% conversion rate. -/
def cxCurrent : FunnelMetrics :=
  { funnel_step := "checkout"
    period := "last_24_hours"
    timestamp_start := 0
    timestamp_end := 1
    total_sessions := 1000
    completed_sessions := 600
    conversion_rate := 60
    drop_off_rate := 40
    by_country := []
    by_device := []
    mean_time_on_step := none
    median_time_on_step := none }

/-- Baseline-window metrics for the boundary case: 1000 sessions at a 72%
conversion rate, so that `delta = -12.0` exactly. -/
def cxBaseline : FunnelMetrics :=
  { funnel_step := "checkout"
    period := "last_7_days"
    timestamp_start := 0
    timestamp_end := 1
    total_sessions := 1000
    completed_sessions := 720
    conversion_rate := 72
    drop_off_rate := 28
    by_country := []
    by_device := []
    mean_time_on_step := none
    median_time_on_step := none }

theorem sigma_cx_vector : (2 : ℝ) ≤ calculateSigma 60 72 1000 1000 := by
  have hp : pooledProportion 60 72 1000 1000 = 33 / 50 := by
    unfold pooledProportion
    push_cast
    norm_num
  have harg : pooledProportion 60 72 1000 1000 * (1 - pooledProportion 60 72 1000 1000)
      * (1 / ((1000 : ℕ) : ℝ) + 1 / ((1000 : ℕ) : ℝ)) = 561 / 1250000 := by
    rw [hp]
    push_cast
    norm_num
  have hse : standardError 60 72 1000 1000 = Real.sqrt (561 / 1250000) := by
    unfold standardError
    rw [harg]
  have hsepos : 0 < standardError 60 72 1000 1000 := by
    rw [hse]
    exact Real.sqrt_pos.mpr (by norm_num)
  have hsele : standardError 60 72 1000 1000 ≤ 3 / 50 := by
    rw [hse]
    calc Real.sqrt (561 / 1250000) ≤ Real.sqrt ((3 / 50) ^ 2) :=
          Real.sqrt_le_sqrt (by norm_num)
      _ = 3 / 50 := Real.sqrt_sq (by norm_num)
  have habs : |((60 : ℚ) : ℝ) / 100 - ((72 : ℚ) : ℝ) / 100| = 12 / 100 := by
    rw [show ((60 : ℚ) : ℝ) / 100 - ((72 : ℚ) : ℝ) / 100 = -(12 / 100) by push_cast; ring,
        abs_neg, abs_of_pos (by norm_num : (0 : ℝ) < 12 / 100)]
  apply le_calculateSigma_of_se_bound _ _ _ _ _ (by norm_num) hsepos
  rw [habs]
  linarith

/-- Counterexample to C1 as stated: at `delta = -12.0` exactly, the sample
size gate and the claimed non-strict drop condition
`delta ≤ -min_drop_percent` hold and the z-score clears the threshold, yet
the detector rejects, because the source tests `delta >= -min_drop_percent`
and therefore rejects the boundary. -/
theorem detect_anomaly_boundary_cx :
    minSampleSize ≤ cxCurrent.total_sessions ∧
    cxCurrent.conversion_rate - cxBaseline.conversion_rate ≤ -minDropPercent ∧
    sigmaThreshold ≤ calculateSigma cxCurrent.conversion_rate cxBaseline.conversion_rate
      cxCurrent.total_sessions cxBaseline.total_sessions ∧
    detectAnomalyOn "checkout" cxCurrent cxBaseline 1000 = none := by
  refine ⟨by norm_num [cxCurrent, minSampleSize],
    by norm_num [cxCurrent, cxBaseline, minDropPercent],
    show sigmaThreshold ≤ calculateSigma 60 72 1000 1000 from sigma_cx_vector, ?_⟩
  simp only [detectAnomalyOn, compareWithBaseline, cxCurrent, cxBaseline]
  rw [show (60 : ℚ) - 72 = ((-1200 : ℤ) : ℚ) / 100 by norm_num, round2_int_div_hundred]
  rw [if_neg (by norm_num [minSampleSize]), if_pos (by norm_num [minDropPercent])]

/-- C2: every metrics value the engine computes has
`conversion_rate + drop_off_rate = 100` (the two `round(…, 2)` calls always
move in opposite directions, so the identity is exact), and a zero-session
result carries the `0` / `100` sentinel instead of an error. -/
theorem funnel_metrics_rate_invariant (db : List Event) (funnelStep period : String)
    (startTs endTs : ℤ) :
    (0 < (calculateFunnelMetrics db funnelStep period startTs endTs).total_sessions →
      (calculateFunnelMetrics db funnelStep period startTs endTs).conversion_rate
        + (calculateFunnelMetrics db funnelStep period startTs endTs).drop_off_rate = 100) ∧
    ((calculateFunnelMetrics db funnelStep period startTs endTs).total_sessions = 0 →
      (calculateFunnelMetrics db funnelStep period startTs endTs).conversion_rate = 0 ∧
      (calculateFunnelMetrics db funnelStep period startTs endTs).drop_off_rate = 100) := by
  simp only [calculateFunnelMetrics]
  by_cases h : (cohortSessionIds db funnelStep startTs endTs).isEmpty
  · rw [if_pos h]
    exact ⟨fun _ => by norm_num [emptyFunnelMetrics], fun _ => by norm_num [emptyFunnelMetrics]⟩
  · rw [if_neg h]
    have hinv := calculateFromEvents_invariant
      (journeyEvents db (cohortSessionIds db funnelStep startTs endTs)) funnelStep period
      startTs endTs
    exact ⟨fun _ => hinv.1, hinv.2⟩

/-- A single event used to exercise the metrics engine on a concrete
database. -/
def wEvent : Event :=
  { event_type := "page_view"
    session_id := "s1"
    user_id := none
    timestamp := 5
    funnel_step := some "signup_form"
    device_type := "mobile"
    country := "US"
    app_version := "1.0.0"
    error_type := none
    error_message := none }

/-- Witness for C2 on a one-event database: one session, rates summing to
exactly 100. -/
theorem funnel_metrics_rate_invariant_witness :
    (calculateFunnelMetrics [wEvent] "signup_form" "last_hour" 0 10).conversion_rate
      + (calculateFunnelMetrics [wEvent] "signup_form" "last_hour" 0 10).drop_off_rate = 100 :=
  (funnel_metrics_rate_invariant [wEvent] "signup_form" "last_hour" 0 10).1 (by decide)

/-- Evidence aggregate for AI diagnosis (`app/models/issues.py`,
`DiagnosisEvidence`); all fields default to empty/none. -/
structure DiagnosisEvidence where
  error_types : List (String × ℕ)
  top_errors : List String
  avg_retry_count : Option ℚ
  time_to_completion_change : Option ℚ
  affected_countries : List String
  affected_devices : List String
  affected_versions : List String
  struggling_session_ids : List String
deriving DecidableEq, Inhabited, Repr

/-- The default `DiagnosisEvidence()` with every field empty. -/
def emptyEvidence : DiagnosisEvidence :=
  { error_types := []
    top_errors := []
    avg_retry_count := none
    time_to_completion_change := none
    affected_countries := []
    affected_devices := []
    affected_versions := []
    struggling_session_ids := [] }

/-- An AI diagnosis (`app/models/issues.py`, `AIDiagnosis`). -/
structure AIDiagnosis where
  root_cause : String
  confidence : ℚ
  explanation : String
  recommended_actions : List String
  code_locations : List String
  model_used : String
  diagnosis_time_ms : ℤ
deriving DecidableEq, Inhabited, Repr

/-- Issue lifecycle status (`app/models/issues.py`, `IssueStatus`). -/
inductive IssueStatus where
  | detected
  | diagnosed
  | fixed
  | measuring
  | verified
  | closed
deriving DecidableEq, Inhabited, Repr

/-- Issue severity (`app/models/issues.py`, `IssueSeverity`). -/
inductive IssueSeverity where
  | critical
  | high
  | medium
  | low
deriving DecidableEq, Inhabited, Repr

/-- Position of a status along the lifecycle chain
`Detected → Diagnosed → Fixed → (Measuring) → Verified → (Closed)`. -/
def statusRank : IssueStatus → ℕ
  | .detected => 0
  | .diagnosed => 1
  | .fixed => 2
  | .measuring => 3
  | .verified => 4
  | .closed => 5

/-- The persisted, mutable issue entity (`app/models/issues.py`, `Issue`). -/
structure Issue where
  id : String
  status : IssueStatus
  severity : IssueSeverity
  anomaly : Anomaly
  evidence : DiagnosisEvidence
  diagnosis : Option AIDiagnosis
  created_at : ℤ
  diagnosed_at : Option ℤ
  fixed_at : Option ℤ
  measured_at : Option ℤ
  fix_commit_sha : Option String
  fix_pr_url : Option String
  jira_ticket_key : Option String
  post_fix_conversion_rate : Option ℚ
  uplift_percentage : Option ℚ
  updated_at : ℤ
deriving Inhabited

/-- State of `IssueManager`: the in-process `self.issues` dict and the rows of
the SQLite `issues` table, both keyed by issue id in insertion order. -/
structure ManagerState where
  issues : List (String × Issue)
  db : List (String × Issue)
deriving Inhabited

/-- Externally visible side effects of the lifecycle operations, recorded in
order: an evidence-collection query, a write of an issue row via
`_save_issue_to_db`, or a call to the diagnosis provider. -/
inductive Effect where
  | collectEvidence (funnelStep : String) (startTime endTime : ℤ)
  | saveToDb (issue : Issue)
  | callProvider (funnelStep : String)

/-- External inputs of one lifecycle call: the evidence collector's result as
an oracle of the query arguments, the diagnosis provider's outcome (`none`
models a raised/timed-out call, whose message is `providerError`), the
current wall-clock in milliseconds, and the `uniform(2, 8)` sample drawn by
`measure_impact`. -/
structure Env where
  evidence : String → ℤ → ℤ → DiagnosisEvidence
  providerOutcome : Option AIDiagnosis
  providerError : String
  now : ℤ
  rand : ℚ

/-- Errors that escape a lifecycle operation to its caller: the
`ValueError(f"Issue ... not found")` re-raised on an unknown id, and the
`ZeroDivisionError` re-raised by `measure_impact` when the anomaly's current
conversion rate is `0.0`. -/
inductive LifecycleError where
  | notFound (issueId : String)
  | zeroDivision
deriving DecidableEq, Repr

/-- Dictionary lookup on the insertion-ordered issue map. -/
def lookupIssue (issueId : String) : List (String × Issue) → Option Issue
  | [] => none
  | (k, v) :: t => if k = issueId then some v else lookupIssue issueId t

/-- Dictionary/`INSERT OR REPLACE` upsert on the insertion-ordered issue
map. -/
def upsertIssue (issueId : String) (issue : Issue) :
    List (String × Issue) → List (String × Issue)
  | [] => [(issueId, issue)]
  | (k, v) :: t =>
    if k = issueId then (k, issue) :: t else (k, v) :: upsertIssue issueId issue t

/-- Shallow embedding of `IssueManager._generate_issue_id`:
`f"issue_{anomaly.detected_at}_{anomaly.funnel_step.replace('_', '')}"`
(deleting every underscore of the step, since the replacement is empty). -/
def generateIssueId (a : Anomaly) : String :=
  "issue_" ++ toString a.detected_at ++ "_"
    ++ String.mk (a.funnel_step.data.filter (fun c => c ≠ '_'))

/-- Shallow embedding of `IssueManager._calculate_severity`. -/
def calculateSeverity (dropPercentage : ℚ) : IssueSeverity :=
  if 20 ≤ dropPercentage then .critical
  else if 15 ≤ dropPercentage then .high
  else if 12 ≤ dropPercentage then .medium
  else .low

/-- The fallback diagnosis built by `DeepSeekClient.diagnose_conversion_drop`
when the provider call raises or times out. -/
def fallbackDiagnosis (errMsg : String) : AIDiagnosis :=
  { root_cause := "Unable to diagnose - AI service error: " ++ errMsg
    confidence := 0
    explanation := "The AI diagnosis service encountered an error. Manual investigation required."
    recommended_actions :=
      ["Review error logs manually", "Check recent deployments", "Analyze affected user segments"]
    code_locations := []
    model_used := "fallback"
    diagnosis_time_ms := 0 }

/-- Shallow embedding of `DeepSeekClient.diagnose_conversion_drop`: the whole
body is wrapped in `try/except`, so a failing provider call never propagates;
it yields the fallback diagnosis instead. -/
def diagnoseConversionDrop (providerOutcome : Option AIDiagnosis) (errMsg : String) :
    AIDiagnosis :=
  match providerOutcome with
  | some d => d
  | none => fallbackDiagnosis errMsg

/-- Shallow embedding of `IssueManager.diagnose_issue`: unknown ids raise; a
known issue gets the provider's (or fallback) diagnosis, status `diagnosed`,
a `diagnosed_at` stamp, and is written back to both the in-memory map and the
database. -/
def diagnoseIssue (env : Env) (s : ManagerState) (issueId : String) :
    Except LifecycleError (Issue × ManagerState × List Effect) :=
  match lookupIssue issueId s.issues with
  | none => .error (.notFound issueId)
  | some issue =>
    let diagnosis := diagnoseConversionDrop env.providerOutcome env.providerError
    let issue' := { issue with
      diagnosis := some diagnosis
      status := .diagnosed
      diagnosed_at := some env.now }
    .ok (issue',
      { issues := upsertIssue issueId issue' s.issues
        db := upsertIssue issueId issue' s.db },
      [.callProvider issue.anomaly.funnel_step, .saveToDb issue'])

/-- Shallow embedding of `IssueManager.create_issue`: derive the id; if it is
already present return the stored issue with no further effect; otherwise
compute severity, collect evidence over the hour ending at `detected_at`,
build the issue with status `detected`, store it in the map and the database,
and, when `auto_diagnose` is set, immediately run `diagnose_issue` (which
cannot fail, since the id was just inserted). -/
def createIssue (env : Env) (s : ManagerState) (a : Anomaly) (autoDiagnose : Bool) :
    Issue × ManagerState × List Effect :=
  let issueId := generateIssueId a
  match lookupIssue issueId s.issues with
  | some existing => (existing, s, [])
  | none =>
    let severity := calculateSeverity a.drop_percentage
    let endTime := a.detected_at
    let startTime := endTime - 3600000
    let ev := env.evidence a.funnel_step startTime endTime
    let issue : Issue :=
      { id := issueId
        status := .detected
        severity := severity
        anomaly := a
        evidence := ev
        diagnosis := none
        created_at := a.detected_at
        diagnosed_at := none
        fixed_at := none
        measured_at := none
        fix_commit_sha := none
        fix_pr_url := none
        jira_ticket_key := none
        post_fix_conversion_rate := none
        uplift_percentage := none
        updated_at := env.now }
    let s1 : ManagerState :=
      { issues := upsertIssue issueId issue s.issues
        db := upsertIssue issueId issue s.db }
    let effs := [Effect.collectEvidence a.funnel_step startTime endTime,
      Effect.saveToDb issue]
    if autoDiagnose then
      match diagnoseIssue env s1 issueId with
      | .ok (issue2, s2, effs2) => (issue2, s2, effs ++ effs2)
      | .error _ => (issue, s1, effs)
    else (issue, s1, effs)

/-- Shallow embedding of `IssueManager.mark_fixed`. -/
def markFixed (env : Env) (s : ManagerState) (issueId : String)
    (commitSha prUrl : Option String) :
    Except LifecycleError (Issue × ManagerState × List Effect) :=
  match lookupIssue issueId s.issues with
  | none => .error (.notFound issueId)
  | some issue =>
    let issue' := { issue with
      status := .fixed
      fixed_at := some env.now
      fix_commit_sha := commitSha
      fix_pr_url := prUrl
      updated_at := env.now }
    .ok (issue',
      { issues := upsertIssue issueId issue' s.issues
        db := upsertIssue issueId issue' s.db },
      [.saveToDb issue'])

/-- Shallow embedding of `IssueManager.measure_impact`: unknown ids raise
`NotFound`; with a zero current conversion rate the uplift division raises
`ZeroDivisionError`, which the surrounding `except` logs and re-raises;
otherwise the post-fix rate is `baseline + uniform(2, 8)`, the uplift is the
relative improvement over the anomaly's current rate, the status becomes
`verified` and `measured_at` is stamped.  Only the in-memory map is updated —
the body contains no `_save_issue_to_db` call. -/
def measureImpact (env : Env) (s : ManagerState) (issueId : String) :
    Except LifecycleError (Issue × ManagerState × List Effect) :=
  match lookupIssue issueId s.issues with
  | none => .error (.notFound issueId)
  | some issue =>
    if issue.anomaly.current_conversion_rate = 0 then .error .zeroDivision
    else
      let postFixRate := issue.anomaly.baseline_conversion_rate + env.rand
      let uplift := (postFixRate - issue.anomaly.current_conversion_rate)
        / issue.anomaly.current_conversion_rate * 100
      let issue' := { issue with
        post_fix_conversion_rate := some (round2 postFixRate)
        uplift_percentage := some (round2 uplift)
        measured_at := some env.now
        status := .verified }
      .ok (issue', { s with issues := upsertIssue issueId issue' s.issues }, [])

theorem lookupIssue_upsert_self (issueId : String) (issue : Issue)
    (l : List (String × Issue)) :
    lookupIssue issueId (upsertIssue issueId issue l) = some issue := by
  induction l with
  | nil => simp [upsertIssue, lookupIssue]
  | cons hd tl ih =>
    obtain ⟨k, v⟩ := hd
    by_cases hk : k = issueId
    · simp [upsertIssue, lookupIssue, hk]
    · simp [upsertIssue, lookupIssue, hk, ih]

theorem createIssue_existing (env : Env) (s : ManagerState) (a : Anomaly) (auto : Bool)
    (i : Issue) (h : lookupIssue (generateIssueId a) s.issues = some i) :
    createIssue env s a auto = (i, s, []) := by
  simp [createIssue, h]

theorem createIssue_lookup (env : Env) (s : ManagerState) (a : Anomaly) (auto : Bool) :
    lookupIssue (generateIssueId a) (createIssue env s a auto).2.1.issues
      = some (createIssue env s a auto).1 := by
  unfold createIssue
  cases hl : lookupIssue (generateIssueId a) s.issues with
  | some existing => simp [hl]
  | none =>
    cases auto with
    | false => simp [hl, lookupIssue_upsert_self]
    | true => simp [hl, diagnoseIssue, lookupIssue_upsert_self]

/-- C4: the issue id is a function of `(funnel_step, detected_at)` alone, and
a second `create_issue` whose anomaly carries the same pair returns the
already-stored issue, leaves the state untouched, and performs no effect at
all — no evidence collection, no store write, and no provider call even when
`auto_diagnose` is requested. -/
theorem create_issue_idempotent :
    (∀ a a' : Anomaly, a.funnel_step = a'.funnel_step → a.detected_at = a'.detected_at →
      generateIssueId a = generateIssueId a') ∧
    (∀ (env env' : Env) (s : ManagerState) (a a' : Anomaly) (auto auto' : Bool),
      a'.funnel_step = a.funnel_step → a'.detected_at = a.detected_at →
      createIssue env' (createIssue env s a auto).2.1 a' auto' =
        ((createIssue env s a auto).1, (createIssue env s a auto).2.1, [])) := by
  have hid : ∀ a a' : Anomaly, a.funnel_step = a'.funnel_step →
      a.detected_at = a'.detected_at → generateIssueId a = generateIssueId a' := by
    intro a a' h1 h2
    unfold generateIssueId
    rw [h1, h2]
  refine ⟨hid, fun env env' s a a' auto auto' hstep hts => ?_⟩
  have hstore := createIssue_lookup env s a auto
  have hkey : generateIssueId a' = generateIssueId a := hid a' a hstep hts
  exact createIssue_existing env' _ a' auto' _ (by rw [hkey]; exact hstore)

/-- A concrete anomaly used by the lifecycle witnesses. -/
def wAnomaly : Anomaly :=
  { funnel_step := "login_button_click"
    detected_at := 1000
    current_conversion_rate := 52
    baseline_conversion_rate := 87
    drop_percentage := 35
    sigma_value := ((1173 / 100 : ℚ) : ℝ)
    is_significant := true
    current_sessions := 300
    baseline_sessions := 650 }

/-- A concrete environment whose diagnosis provider fails. -/
def env0 : Env :=
  { evidence := fun _ _ _ => emptyEvidence
    providerOutcome := none
    providerError := "Request timed out."
    now := 2000
    rand := 5 }

/-- Witness for C4: creating the same anomaly twice (second time with
`auto_diagnose`) returns the stored issue with no state change and no
effects. -/
theorem create_issue_idempotent_witness :
    createIssue env0 (createIssue env0 ⟨[], []⟩ wAnomaly false).2.1 wAnomaly true =
      ((createIssue env0 ⟨[], []⟩ wAnomaly false).1,
       (createIssue env0 ⟨[], []⟩ wAnomaly false).2.1, []) :=
  create_issue_idempotent.2 env0 env0 ⟨[], []⟩ wAnomaly wAnomaly false true rfl rfl

/-- C5 (amended): each lifecycle operation unconditionally overwrites the
status with its own target state — `diagnose_issue` sets `diagnosed`,
`mark_fixed` sets `fixed`, `measure_impact` sets `verified` — without
checking the current status.  Along the canonical order
`create → diagnose → mark_fixed → measure` the status therefore only
advances, but out-of-order calls move it backward (see the counterexample):
the transitions are not guarded. -/
theorem lifecycle_status_unconditional (env : Env) (s : ManagerState) (issueId : String)
    (i : Issue) (s' : ManagerState) (effs : List Effect) :
    (diagnoseIssue env s issueId = .ok (i, s', effs) → i.status = .diagnosed) ∧
    (∀ commitSha prUrl, markFixed env s issueId commitSha prUrl = .ok (i, s', effs) →
      i.status = .fixed) ∧
    (measureImpact env s issueId = .ok (i, s', effs) → i.status = .verified) := by
  refine ⟨?_, ?_, ?_⟩
  · intro h
    cases hl : lookupIssue issueId s.issues with
    | none => simp [diagnoseIssue, hl] at h
    | some issue =>
      simp only [diagnoseIssue, hl, Except.ok.injEq, Prod.mk.injEq] at h
      obtain ⟨hi, -⟩ := h
      rw [← hi]
  · intro commitSha prUrl h
    cases hl : lookupIssue issueId s.issues with
    | none => simp [markFixed, hl] at h
    | some issue =>
      simp only [markFixed, hl, Except.ok.injEq, Prod.mk.injEq] at h
      obtain ⟨hi, -⟩ := h
      rw [← hi]
  · intro h
    cases hl : lookupIssue issueId s.issues with
    | none => simp [measureImpact, hl] at h
    | some issue =>
      by_cases hz : issue.anomaly.current_conversion_rate = 0
      · simp [measureImpact, hl, hz] at h
      · simp only [measureImpact, hl, if_neg hz, Except.ok.injEq, Prod.mk.injEq] at h
        obtain ⟨hi, -⟩ := h
        rw [← hi]

/-- A concrete stored issue for lifecycle witnesses. -/
def w5Issue : Issue :=
  { id := "issue_w5"
    status := .detected
    severity := .critical
    anomaly := wAnomaly
    evidence := emptyEvidence
    diagnosis := none
    created_at := 1000
    diagnosed_at := none
    fixed_at := none
    measured_at := none
    fix_commit_sha := none
    fix_pr_url := none
    jira_ticket_key := none
    post_fix_conversion_rate := none
    uplift_percentage := none
    updated_at := 1000 }

/-- Manager state holding `w5Issue` in both the map and the store. -/
def w5State : ManagerState := ⟨[("issue_w5", w5Issue)], [("issue_w5", w5Issue)]⟩

/-- The result of diagnosing `w5Issue`. -/
def w5Result : Issue × ManagerState × List Effect :=
  (diagnoseIssue env0 w5State "issue_w5").toOption.getD default

/-- Witness for C5 (amended): diagnosing a stored issue ends in status
`diagnosed`. -/
theorem lifecycle_status_unconditional_witness :
    w5Result.1.status = IssueStatus.diagnosed :=
  (lifecycle_status_unconditional env0 w5State "issue_w5"
    w5Result.1 w5Result.2.1 w5Result.2.2).1 rfl

/-- The issue id generated for `wAnomaly`. -/
def cx5Id : String := generateIssueId wAnomaly

/-- State after creating an issue from `wAnomaly`. -/
def cx5AfterCreate : ManagerState := (createIssue env0 ⟨[], []⟩ wAnomaly false).2.1

/-- State after additionally marking that issue fixed. -/
def cx5AfterFixed : ManagerState :=
  ((markFixed env0 cx5AfterCreate cx5Id none none).toOption.getD default).2.1

/-- The issue returned by diagnosing the already-fixed issue. -/
def cx5Diagnosed : Issue :=
  ((diagnoseIssue env0 cx5AfterFixed cx5Id).toOption.getD default).1

/-- Counterexample to C5 as stated: an issue in status `fixed` is moved
backward to `diagnosed` by a later `diagnose_issue` call — the transitions
are not monotonic for out-of-order call sequences. -/
theorem issue_status_monotonic_cx :
    (lookupIssue cx5Id cx5AfterFixed.issues).map Issue.status = some IssueStatus.fixed ∧
    cx5Diagnosed.status = IssueStatus.diagnosed ∧
    statusRank IssueStatus.diagnosed < statusRank IssueStatus.fixed :=
  ⟨rfl, rfl, by norm_num [statusRank]⟩

/-- The issue as updated by a `diagnose_issue` call whose provider failed:
fallback diagnosis carried over, status `diagnosed`, `diagnosed_at`
stamped. -/
def degradedDiagnosedIssue (env : Env) (issue : Issue) : Issue :=
  { issue with
    diagnosis := some (fallbackDiagnosis env.providerError)
    status := .diagnosed
    diagnosed_at := some env.now }

/-- C6: a failing (raising or timed-out) diagnosis provider never propagates
out of `diagnose_issue` on a known id — the client's `except` branch yields a
degraded diagnosis with confidence 0, the generic manual-investigation
explanation and the fixed generic action list, and the issue is still
advanced to `diagnosed` and stored. -/
theorem diagnose_provider_failure_degraded (env : Env) (s : ManagerState)
    (issueId : String) (issue : Issue)
    (hlk : lookupIssue issueId s.issues = some issue)
    (hfail : env.providerOutcome = none) :
    diagnoseIssue env s issueId = .ok (degradedDiagnosedIssue env issue,
      ⟨upsertIssue issueId (degradedDiagnosedIssue env issue) s.issues,
       upsertIssue issueId (degradedDiagnosedIssue env issue) s.db⟩,
      [.callProvider issue.anomaly.funnel_step,
       .saveToDb (degradedDiagnosedIssue env issue)]) ∧
    (fallbackDiagnosis env.providerError).confidence = 0 ∧
    (fallbackDiagnosis env.providerError).explanation
      = "The AI diagnosis service encountered an error. Manual investigation required." ∧
    (fallbackDiagnosis env.providerError).recommended_actions
      = ["Review error logs manually", "Check recent deployments",
         "Analyze affected user segments"] := by
  refine ⟨?_, rfl, rfl, rfl⟩
  simp [diagnoseIssue, hlk, hfail, diagnoseConversionDrop, degradedDiagnosedIssue]

/-- Witness for C6: diagnosing the stored issue under the failing provider of
`env0` yields the degraded diagnosis and status `diagnosed`. -/
theorem diagnose_provider_failure_degraded_witness :
    diagnoseIssue env0 w5State "issue_w5" = Except.ok (degradedDiagnosedIssue env0 w5Issue,
      ⟨upsertIssue "issue_w5" (degradedDiagnosedIssue env0 w5Issue) w5State.issues,
       upsertIssue "issue_w5" (degradedDiagnosedIssue env0 w5Issue) w5State.db⟩,
      [Effect.callProvider w5Issue.anomaly.funnel_step,
       Effect.saveToDb (degradedDiagnosedIssue env0 w5Issue)]) :=
  (diagnose_provider_failure_degraded env0 w5State "issue_w5" w5Issue rfl rfl).1

/-- The issue as updated by a successful `measure_impact`: post-fix rate
`baseline + uniform(2, 8)`, relative uplift over the anomaly's current rate,
status `verified`, `measured_at` stamped. -/
def measuredIssue (env : Env) (issue : Issue) : Issue :=
  { issue with
    post_fix_conversion_rate := some (round2 (issue.anomaly.baseline_conversion_rate + env.rand))
    uplift_percentage := some (round2 ((issue.anomaly.baseline_conversion_rate + env.rand
      - issue.anomaly.current_conversion_rate) / issue.anomaly.current_conversion_rate * 100))
    measured_at := some env.now
    status := .verified }

/-- C7 (amended): `measure_impact` fails with `NotFound` exactly on unknown
ids; on a known id whose anomaly has a nonzero current conversion rate it
verifies the issue, stamps `measured_at` and stores the uplift formula's
value; on a known id with a zero current conversion rate it fails with the
re-raised `ZeroDivisionError` (never with `NotFound`). -/
theorem measure_impact_spec (env : Env) (s : ManagerState) (issueId : String) :
    (lookupIssue issueId s.issues = none →
      measureImpact env s issueId = .error (.notFound issueId)) ∧
    (∀ issue : Issue, lookupIssue issueId s.issues = some issue →
      issue.anomaly.current_conversion_rate = 0 →
      measureImpact env s issueId = .error .zeroDivision) ∧
    (∀ issue : Issue, lookupIssue issueId s.issues = some issue →
      issue.anomaly.current_conversion_rate ≠ 0 →
      measureImpact env s issueId = .ok (measuredIssue env issue,
        ⟨upsertIssue issueId (measuredIssue env issue) s.issues, s.db⟩, [])) ∧
    (∀ issue : Issue, (measuredIssue env issue).status = .verified ∧
      (measuredIssue env issue).measured_at = some env.now ∧
      (measuredIssue env issue).uplift_percentage
        = some (round2 ((issue.anomaly.baseline_conversion_rate + env.rand
            - issue.anomaly.current_conversion_rate)
          / issue.anomaly.current_conversion_rate * 100))) := by
  refine ⟨fun h => by simp [measureImpact, h],
    fun issue h hz => by simp [measureImpact, h, hz],
    fun issue h hz => ?_,
    fun issue => ⟨rfl, rfl, rfl⟩⟩
  simp [measureImpact, h, if_neg hz, measuredIssue]

/-- Witness for C7 on the stored issue with a 52% current rate. -/
theorem measure_impact_spec_witness :
    measureImpact env0 w5State "issue_w5" = Except.ok (measuredIssue env0 w5Issue,
      ⟨upsertIssue "issue_w5" (measuredIssue env0 w5Issue) w5State.issues, w5State.db⟩, []) :=
  (measure_impact_spec env0 w5State "issue_w5").2.2.1 w5Issue rfl (by decide)

/-- An anomaly whose current conversion rate collapsed to exactly zero. -/
def cx7Anomaly : Anomaly :=
  { funnel_step := "login_complete"
    detected_at := 1000
    current_conversion_rate := 0
    baseline_conversion_rate := 90
    drop_percentage := 90
    sigma_value := ((5 : ℚ) : ℝ)
    is_significant := true
    current_sessions := 200
    baseline_sessions := 300 }

/-- A stored issue tracking `cx7Anomaly`. -/
def cx7Issue : Issue := { w5Issue with id := "issue_cx7", anomaly := cx7Anomaly }

/-- Manager state holding `cx7Issue`. -/
def cx7State : ManagerState := ⟨[("issue_cx7", cx7Issue)], [("issue_cx7", cx7Issue)]⟩

/-- Counterexample to C7 as stated: on this known id `measure_impact` does not
verify the issue — the uplift division by the zero current rate raises
`ZeroDivisionError`, which the `except` branch re-raises to the caller. -/
theorem measure_impact_zero_rate_cx :
    (lookupIssue "issue_cx7" cx7State.issues).isSome = true ∧
    measureImpact env0 cx7State "issue_cx7" = .error LifecycleError.zeroDivision :=
  ⟨rfl, rfl⟩

/-- C8 (amended): `create_issue` on a new id, `diagnose_issue` and
`mark_fixed` write the updated issue to the store before returning, so cache
and store agree at that id afterwards; `measure_impact`, however, contains no
store write: it leaves the store untouched and returns no save effect. -/
theorem persistence_spec (env : Env) (s : ManagerState) :
    (∀ (a : Anomaly) (auto : Bool), lookupIssue (generateIssueId a) s.issues = none →
      lookupIssue (generateIssueId a) (createIssue env s a auto).2.1.issues
        = lookupIssue (generateIssueId a) (createIssue env s a auto).2.1.db ∧
      ∃ i, Effect.saveToDb i ∈ (createIssue env s a auto).2.2) ∧
    (∀ (issueId : String) (i : Issue) (s' : ManagerState) (effs : List Effect),
      diagnoseIssue env s issueId = .ok (i, s', effs) →
      lookupIssue issueId s'.issues = lookupIssue issueId s'.db ∧
      Effect.saveToDb i ∈ effs) ∧
    (∀ (issueId : String) (commitSha prUrl : Option String) (i : Issue)
      (s' : ManagerState) (effs : List Effect),
      markFixed env s issueId commitSha prUrl = .ok (i, s', effs) →
      lookupIssue issueId s'.issues = lookupIssue issueId s'.db ∧
      Effect.saveToDb i ∈ effs) ∧
    (∀ (issueId : String) (i : Issue) (s' : ManagerState) (effs : List Effect),
      measureImpact env s issueId = .ok (i, s', effs) →
      s'.db = s.db ∧ effs = []) := by
  refine ⟨?_, ?_, ?_, ?_⟩
  · intro a auto h
    unfold createIssue
    cases auto with
    | false =>
      simp [h, lookupIssue_upsert_self]
    | true =>
      simp [h, diagnoseIssue, lookupIssue_upsert_self]
  · intro issueId i s' effs h
    cases hl : lookupIssue issueId s.issues with
    | none => simp [diagnoseIssue, hl] at h
    | some issue =>
      simp only [diagnoseIssue, hl, Except.ok.injEq, Prod.mk.injEq] at h
      obtain ⟨hi, hs, he⟩ := h
      subst hi
      subst hs
      subst he
      exact ⟨by rw [lookupIssue_upsert_self, lookupIssue_upsert_self], by simp⟩
  · intro issueId commitSha prUrl i s' effs h
    cases hl : lookupIssue issueId s.issues with
    | none => simp [markFixed, hl] at h
    | some issue =>
      simp only [markFixed, hl, Except.ok.injEq, Prod.mk.injEq] at h
      obtain ⟨hi, hs, he⟩ := h
      subst hi
      subst hs
      subst he
      exact ⟨by rw [lookupIssue_upsert_self, lookupIssue_upsert_self], by simp⟩
  · intro issueId i s' effs h
    cases hl : lookupIssue issueId s.issues with
    | none => simp [measureImpact, hl] at h
    | some issue =>
      by_cases hz : issue.anomaly.current_conversion_rate = 0
      · simp [measureImpact, hl, hz] at h
      · simp only [measureImpact, hl, if_neg hz, Except.ok.injEq, Prod.mk.injEq] at h
        obtain ⟨-, hs, he⟩ := h
        subst hs
        subst he
        exact ⟨rfl, rfl⟩

/-- The result of marking the stored witness issue fixed. -/
def w8Result : Issue × ManagerState × List Effect :=
  (markFixed env0 w5State "issue_w5" none none).toOption.getD default

/-- Witness for C8 (amended): after `mark_fixed` the cache and the store
agree at the id and the effect list contains the store write. -/
theorem persistence_spec_witness :
    lookupIssue "issue_w5" w8Result.2.1.issues = lookupIssue "issue_w5" w8Result.2.1.db ∧
    Effect.saveToDb w8Result.1 ∈ w8Result.2.2 :=
  (persistence_spec env0 w5State).2.2.1 "issue_w5" none none
    w8Result.1 w8Result.2.1 w8Result.2.2 rfl

/-- A stored issue in status `fixed`, consistent between cache and store. -/
def cx8Issue : Issue := { w5Issue with id := "issue_cx8", status := IssueStatus.fixed }

/-- Manager state holding `cx8Issue` identically in cache and store. -/
def cx8State : ManagerState := ⟨[("issue_cx8", cx8Issue)], [("issue_cx8", cx8Issue)]⟩

/-- The manager state after measuring the impact of `cx8Issue`. -/
def cx8After : ManagerState :=
  ((measureImpact env0 cx8State "issue_cx8").toOption.getD default).2.1

/-- Counterexample to C8 as stated: after a successful `measure_impact` the
cached issue is `verified` while the stored row still says `fixed` — the
operation returned without writing the issue store, so cache and store
disagree. -/
theorem measure_impact_no_persist_cx :
    cx8State.issues = cx8State.db ∧
    (lookupIssue "issue_cx8" cx8After.issues).map Issue.status = some IssueStatus.verified ∧
    (lookupIssue "issue_cx8" cx8After.db).map Issue.status = some IssueStatus.fixed :=
  ⟨rfl, rfl, rfl⟩

/-- Shallow embedding of `SQLiteClient.query_events` with a funnel-step
filter: events of the step inside the window, ordered by timestamp. -/
def queryEvents (db : List Event) (startTime endTime : ℤ) (funnelStep : String) :
    List Event :=
  stableSort (fun a b => decide (a.timestamp < b.timestamp))
    (db.filter (fun e => decide (e.funnel_step = some funnelStep ∧
      startTime ≤ e.timestamp ∧ e.timestamp ≤ endTime)))

/-- An event whose type marks an error (`EventType.ERROR = "error"`). -/
def isErrorEvent (e : Event) : Bool := e.event_type == "error"

/-- An event whose type marks a retry (`EventType.RESEND_CLICK`). -/
def isRetryEvent (e : Event) : Bool := e.event_type == "resend_click"

/-- Events replayed in per-session groups, sessions in first-occurrence
order — the iteration order of `_analyze_events`' outer loop. -/
def eventsInSessionOrder (events : List Event) : List Event :=
  (distinctSessionIds events).foldr (fun sid acc => sessionEvents events sid ++ acc) []

/-- Tally of `error_type → count` over all error events. -/
def errorTypesTally (events : List Event) : List (String × ℕ) :=
  (eventsInSessionOrder events).foldl
    (fun acc e => if isErrorEvent e then tallyIncr (e.error_type.getD "unknown") acc else acc)
    []

/-- Up to 5 distinct non-empty error messages, in first-appearance order. -/
def topErrorMessages (events : List Event) : List String :=
  ((eventsInSessionOrder events).foldl
    (fun acc e =>
      if isErrorEvent e then
        let msg := e.error_message.getD ""
        if msg ≠ "" ∧ msg ∉ acc then acc ++ [msg] else acc
      else acc)
    []).take 5

/-- Occurrence tally of an attribute over every event in the window. -/
def segmentTally (events : List Event) (attr : Event → String) : List (String × ℕ) :=
  (eventsInSessionOrder events).foldl (fun acc e => tallyIncr (attr e) acc) []

/-- The `k` keys of largest count, by a stable descending sort — Python's
`sorted(counts.items(), key=lambda x: x[1], reverse=True)[:k]`. -/
def topByCount (l : List (String × ℕ)) (k : ℕ) : List String :=
  ((stableSort (fun a b => decide (b.2 < a.2)) l).map Prod.fst).take k

/-- Number of retry events inside one session. -/
def sessionRetryCount (es : List Event) : ℕ := (es.filter isRetryEvent).length

/-- Whether a session contains any error event. -/
def sessionHasError (es : List Event) : Bool := es.any isErrorEvent

/-- The positive per-session retry counts, in session order. -/
def retryCountsList (events : List Event) : List ℕ :=
  (distinctSessionIds events).foldr
    (fun sid acc =>
      let rc := sessionRetryCount (sessionEvents events sid)
      if 0 < rc then rc :: acc else acc)
    []

/-- Up to 10 struggling session ids: sessions with an error event or at least
two retries. -/
def strugglingSessions (events : List Event) : List String :=
  ((distinctSessionIds events).filter
    (fun sid => sessionHasError (sessionEvents events sid)
      || decide (2 ≤ sessionRetryCount (sessionEvents events sid)))).take 10

/-- Shallow embedding of `EvidenceCollector._analyze_events`: the pure
aggregation of the window's events into a `DiagnosisEvidence`. -/
def analyzeEvents (events : List Event) : DiagnosisEvidence :=
  let retryCounts := retryCountsList events
  let avgRetry : ℚ :=
    if retryCounts.length = 0 then 0 else (retryCounts.sum : ℚ) / (retryCounts.length : ℚ)
  { error_types := errorTypesTally events
    top_errors := topErrorMessages events
    avg_retry_count := if 0 < avgRetry then some (round1 avgRetry) else none
    time_to_completion_change := none
    affected_countries := topByCount (segmentTally events (·.country)) 3
    affected_devices := topByCount (segmentTally events (·.device_type)) 2
    affected_versions := topByCount (segmentTally events (·.app_version)) 3
    struggling_session_ids := strugglingSessions events }

/-- The hardcoded `otp_verification` demo template, also the default template
for unknown steps. -/
def demoEvidenceOtp : DiagnosisEvidence :=
  { error_types := [("network_timeout", 45), ("invalid_otp", 23),
      ("rate_limit_exceeded", 12), ("provider_error", 8)]
    top_errors := ["Connection timeout after 30s waiting for Twilio response",
      "Invalid OTP code entered (3+ attempts)",
      "Rate limit exceeded: too many OTP requests from same number",
      "Twilio API error: 429 Too Many Requests"]
    avg_retry_count := some (23 / 10)
    time_to_completion_change := some (455 / 10)
    affected_countries := ["IN", "PH", "BD"]
    affected_devices := ["mobile"]
    affected_versions := ["2.1.0", "2.1.1"]
    struggling_session_ids := ["sess_demo_0", "sess_demo_1", "sess_demo_2",
      "sess_demo_3", "sess_demo_4"] }

/-- The hardcoded `signup_form` demo template. -/
def demoEvidenceSignup : DiagnosisEvidence :=
  { error_types := [("validation_error", 34), ("network_error", 18), ("session_expired", 12)]
    top_errors := ["Email validation failed: invalid format",
      "Network request failed after 3 retries",
      "Session expired - please refresh page"]
    avg_retry_count := some (18 / 10)
    time_to_completion_change := some (223 / 10)
    affected_countries := ["US", "UK"]
    affected_devices := ["desktop"]
    affected_versions := ["2.0.5"]
    struggling_session_ids := ["sess_demo_0", "sess_demo_1", "sess_demo_2"] }

/-- The hardcoded `profile_creation` demo template. -/
def demoEvidenceProfile : DiagnosisEvidence :=
  { error_types := [("image_upload_failed", 28), ("profile_save_error", 15),
      ("validation_failed", 10)]
    top_errors := ["Image upload failed: file size exceeded 5MB",
      "Failed to save profile: database timeout",
      "Invalid phone number format for region"]
    avg_retry_count := some (21 / 10)
    time_to_completion_change := some (387 / 10)
    affected_countries := ["IN", "US"]
    affected_devices := ["mobile", "desktop"]
    affected_versions := ["2.1.0"]
    struggling_session_ids := ["sess_demo_0", "sess_demo_1", "sess_demo_2", "sess_demo_3"] }

/-- Shallow embedding of `EvidenceCollector._generate_demo_evidence`:
`evidence_templates.get(funnel_step, evidence_templates["otp_verification"])`. -/
def generateDemoEvidence (funnelStep : String) : DiagnosisEvidence :=
  if funnelStep = "otp_verification" then demoEvidenceOtp
  else if funnelStep = "signup_form" then demoEvidenceSignup
  else if funnelStep = "profile_creation" then demoEvidenceProfile
  else demoEvidenceOtp

/-- Shallow embedding of `EvidenceCollector.collect_evidence` with the event
store and the `settings.demo_mode` flag passed explicitly: in demo mode or
when the window's query returns no events, a hardcoded demo template is
substituted; otherwise the real events are aggregated. -/
def collectEvidence (demoMode : Bool) (db : List Event) (funnelStep : String)
    (startTime endTime : ℤ) : DiagnosisEvidence :=
  let events := queryEvents db startTime endTime funnelStep
  if demoMode || events.length == 0 then generateDemoEvidence funnelStep
  else analyzeEvents events

/-- C9 (amended): with demo mode off and at least one event of the step in
the window, the returned evidence is precisely the pure aggregation
`analyzeEvents` of the window's events — it depends on nothing but those
events.  (When the window has no events, the collector instead substitutes a
hardcoded, non-empty demo template; see the counterexample.) -/
theorem collect_evidence_pure_on_events (db : List Event) (funnelStep : String)
    (startTime endTime : ℤ)
    (hne : queryEvents db startTime endTime funnelStep ≠ []) :
    collectEvidence false db funnelStep startTime endTime
      = analyzeEvents (queryEvents db startTime endTime funnelStep) := by
  unfold collectEvidence
  have hlen : (queryEvents db startTime endTime funnelStep).length ≠ 0 := by
    intro h
    exact hne (List.length_eq_zero.mp h)
  simp [hlen]

/-- A concrete error event used by the evidence witnesses. -/
def w9Event : Event :=
  { event_type := "error"
    session_id := "s1"
    user_id := none
    timestamp := 5
    funnel_step := some "checkout"
    device_type := "mobile"
    country := "US"
    app_version := "1.0.0"
    error_type := some "network_timeout"
    error_message := some "boom" }

/-- Witness for C9 (amended) on a one-event window. -/
theorem collect_evidence_pure_on_events_witness :
    collectEvidence false [w9Event] "checkout" 0 10
      = analyzeEvents (queryEvents [w9Event] 0 10 "checkout") :=
  collect_evidence_pure_on_events [w9Event] "checkout" 0 10 (by decide)

/-- Counterexample to C9 as stated: an empty window does not yield the empty
aggregate — the collector substitutes the default demo template, whose error
tally, error messages, segments and struggling-session sample are all
non-empty. -/
theorem collect_evidence_empty_window_cx :
    queryEvents ([] : List Event) 0 1000 "checkout" = [] ∧
    collectEvidence false [] "checkout" 0 1000 = generateDemoEvidence "checkout" ∧
    (collectEvidence false [] "checkout" 0 1000).error_types ≠ [] ∧
    (collectEvidence false [] "checkout" 0 1000).struggling_session_ids ≠ [] :=
  ⟨rfl, rfl, by decide, by decide⟩

/-- An anomaly at funnel step `form_start`. -/
def cx10FormStart : Anomaly :=
  { funnel_step := "form_start"
    detected_at := 1000
    current_conversion_rate := 68
    baseline_conversion_rate := 82
    drop_percentage := 17
    sigma_value := ((25 / 10 : ℚ) : ℝ)
    is_significant := true
    current_sessions := 680
    baseline_sessions := 820 }

/-- An anomaly at the distinct funnel step `formstart`, detected at the same
instant. -/
def cx10Formstart : Anomaly :=
  { funnel_step := "formstart"
    detected_at := 1000
    current_conversion_rate := 50
    baseline_conversion_rate := 80
    drop_percentage := 30
    sigma_value := ((31 / 10 : ℚ) : ℝ)
    is_significant := true
    current_sessions := 500
    baseline_sessions := 800 }

/-- C10: because `_generate_issue_id` deletes underscores from the step
before embedding it, the id is not injective on `(funnel_step,
detected_at)` — the distinct steps `form_start` and `formstart` with the same
`detected_at` collide, and creating the second anomaly's issue returns the
first anomaly's stored issue instead of creating a new one. -/
theorem issue_id_collision :
    cx10FormStart.funnel_step ≠ cx10Formstart.funnel_step ∧
    cx10FormStart.detected_at = cx10Formstart.detected_at ∧
    generateIssueId cx10FormStart = generateIssueId cx10Formstart ∧
    createIssue env0 (createIssue env0 ⟨[], []⟩ cx10FormStart false).2.1 cx10Formstart true
      = ((createIssue env0 ⟨[], []⟩ cx10FormStart false).1,
         (createIssue env0 ⟨[], []⟩ cx10FormStart false).2.1, []) ∧
    (createIssue env0 ⟨[], []⟩ cx10FormStart false).1.anomaly.funnel_step = "form_start" :=
  ⟨by decide, rfl, rfl, rfl, rfl⟩

end Argux
